import Mathlib

/-!
Shallow embedding of the fancybits/bonjour mDNS responder
(`service.go` and the server file), together with theorems checking the
natural-language specification against it.  Go strings are modelled as
`List Char`, Go `int` as `Int`, and unsigned fields as `Nat` with explicit
`% 2 ^ w` where a Go conversion truncates.
-/

/-- Go strings, modelled as lists of characters. -/
abbrev GoStr := List Char

/-- Go `net.IP`, a byte slice; modelled as a list of byte values. -/
abbrev GoIP := List Nat

/-- Head character is a dot (`s != "" && s[0] == '.'`). -/
def headIsDot : GoStr → Bool
  | [] => false
  | c :: _ => c == '.'

/-- Last character is a dot. -/
def lastIsDot : GoStr → Bool
  | [] => false
  | [c] => c == '.'
  | _ :: c :: rest => lastIsDot (c :: rest)

/-- Some two adjacent characters are both dots. -/
def hasAdjDots : GoStr → Bool
  | a :: b :: rest => (a == '.' && b == '.') || hasAdjDots (b :: rest)
  | _ => false

/-- Drop one leading dot if present. -/
def dropLeadDot : GoStr → GoStr
  | '.' :: rest => rest
  | s => s

/-- Drop one trailing dot if present. -/
def dropTrailDot (s : GoStr) : GoStr :=
  if lastIsDot s then s.dropLast else s

/-- Modelled from the spec: the repository's `trimDot` helper (its defining
file is not under `src/`; only callers are).  Per the spec's name-utilities
section it "strips exactly one leading and one trailing `.` if present". -/
def trimDot (s : GoStr) : GoStr :=
  dropTrailDot (dropLeadDot s)

/-- `ServiceRecord` from `service.go`: the identity triple.  The cached
`serviceName`/`serviceInstanceName`/`serviceTypeName` fields are not carried:
the cache is write-once and always holds the value of the pure composition
below, so the derived names are modelled as functions of the triple. -/
structure ServiceRecord where
  Instance : GoStr
  Service : GoStr
  Domain : GoStr
deriving DecidableEq, Repr

/-- `ServiceRecord.ServiceName`: `fmt.Sprintf("%s.%s.", trimDot(Service), trimDot(Domain))`. -/
def ServiceName (r : ServiceRecord) : GoStr :=
  trimDot r.Service ++ ['.'] ++ trimDot r.Domain ++ ['.']

/-- `ServiceRecord.ServiceInstanceName`: empty when the instance is empty,
else `fmt.Sprintf("%s.%s", trimDot(Instance), ServiceName())`. -/
def ServiceInstanceName (r : ServiceRecord) : GoStr :=
  if r.Instance = [] then []
  else trimDot r.Instance ++ ['.'] ++ ServiceName r

/-- `ServiceRecord.ServiceTypeName`: `_services._dns-sd._udp.<domain>.` with
the domain defaulting to `local` when empty. -/
def ServiceTypeName (r : ServiceRecord) : GoStr :=
  ("_services._dns-sd._udp.").data ++
    (if r.Domain.length > 0 then trimDot r.Domain else ("local").data) ++ ['.']

/-- `ServiceEntry` from `service.go`: a registration.  Go embeds
`ServiceRecord`; here it is the `record` field. -/
structure ServiceEntry where
  record : ServiceRecord
  HostName : GoStr
  Port : Int
  Text : List GoStr
  TTL : Nat
  AddrIPv4 : List GoIP
  AddrIPv6 : List GoIP
deriving DecidableEq, Repr

/-- Go `uint16(x)` conversion of an `int`: reduction modulo `2 ^ 16`
(two's-complement wraparound, which for negative values agrees with the
sign-of-divisor Euclidean remainder). -/
def goUint16 (x : Int) : Nat :=
  (x % 65536).toNat

/- DNS wire constants from github.com/miekg/dns. -/

def typeA : Nat := 1
def typePTR : Nat := 12
def typeTXT : Nat := 16
def typeAAAA : Nat := 28
def typeSRV : Nat := 33
def classINET : Nat := 1

/-- The RFC 6762 cache-flush bit, `1 << 15`, OR'd into rrclass. -/
def cacheFlush : Nat := 32768

/-- `dns.RR_Header`. -/
structure RRHeader where
  Name : GoStr
  Rrtype : Nat
  Class : Nat
  Ttl : Nat
deriving DecidableEq, Repr

/-- The rdata of the record types the responder emits. -/
inductive RData where
  | ptr (target : GoStr)
  | srv (priority weight port : Nat) (target : GoStr)
  | txt (txt : List GoStr)
  | a (ip : GoIP)
  | aaaa (ip : GoIP)
deriving DecidableEq, Repr

/-- A resource record: header plus rdata. -/
structure RR where
  Hdr : RRHeader
  Rdata : RData
deriving DecidableEq, Repr

/-- `dns.Question`. -/
structure DnsQuestion where
  Name : GoStr
  Qtype : Nat
  Qclass : Nat
deriving DecidableEq, Repr

/-- `dns.Msg`, restricted to the fields the responder reads or writes. -/
structure DnsMsg where
  Response : Bool
  RecursionDesired : Bool
  Question : List DnsQuestion
  Answer : List RR
  Ns : List RR
  Extra : List RR
deriving DecidableEq, Repr

/-- The record-type predicates used to state structural claims. -/
def isSRVb (rr : RR) : Bool := rr.Hdr.Rrtype == typeSRV

def isTXTb (rr : RR) : Bool := rr.Hdr.Rrtype == typeTXT

def isPTRb (rr : RR) : Bool := rr.Hdr.Rrtype == typePTR

def isAb (rr : RR) : Bool := rr.Hdr.Rrtype == typeA

def isAAAAb (rr : RR) : Bool := rr.Hdr.Rrtype == typeAAAA

/-- The cache-flush bit of a record's rrclass is set. -/
def cfSet (rr : RR) : Prop := rr.Hdr.Class &&& cacheFlush ≠ 0

instance (rr : RR) : Decidable (cfSet rr) := by
  unfold cfSet; infer_instance

/-- `Server` from the server file.  The two UDP connections are modelled by
whether they are present and open. -/
structure Server where
  Service : Option ServiceEntry
  ipv4conn : Bool
  ipv6conn : Bool
  shuttingDown : Bool
  ttl : Nat
deriving DecidableEq, Repr

/-- Number of multicast repetitions, `multicastRepitions = 2` in the server file. -/
def multicastRepitions : Nat := 2

/- Record builders: one per composite literal in the compose functions. -/

/-- The PTR `ServiceName -> ServiceInstanceName` of `composeBrowsingAnswers`. -/
def browsePTR (s : ServiceEntry) (ttl : Nat) : RR :=
  { Hdr := { Name := ServiceName s.record, Rrtype := typePTR, Class := classINET, Ttl := ttl },
    Rdata := RData.ptr (ServiceInstanceName s.record) }

/-- The TXT record of `composeBrowsingAnswers` (no cache-flush). -/
def browseTXT (s : ServiceEntry) (ttl : Nat) : RR :=
  { Hdr := { Name := ServiceInstanceName s.record, Rrtype := typeTXT, Class := classINET, Ttl := ttl },
    Rdata := RData.txt s.Text }

/-- The SRV record of `composeBrowsingAnswers` (no cache-flush). -/
def browseSRV (s : ServiceEntry) (ttl : Nat) : RR :=
  { Hdr := { Name := ServiceInstanceName s.record, Rrtype := typeSRV, Class := classINET, Ttl := ttl },
    Rdata := RData.srv 0 0 (goUint16 s.Port) s.HostName }

/-- An A record of `composeBrowsingAnswers` (no cache-flush). -/
def browseA (s : ServiceEntry) (ttl : Nat) (ip : GoIP) : RR :=
  { Hdr := { Name := s.HostName, Rrtype := typeA, Class := classINET, Ttl := ttl },
    Rdata := RData.a ip }

/-- An AAAA record of `composeBrowsingAnswers` (no cache-flush). -/
def browseAAAA (s : ServiceEntry) (ttl : Nat) (ip : GoIP) : RR :=
  { Hdr := { Name := s.HostName, Rrtype := typeAAAA, Class := classINET, Ttl := ttl },
    Rdata := RData.aaaa ip }

/-- The PTR `ServiceName -> ServiceInstanceName` of `composeLookupAnswers`
(no cache-flush). -/
def lookupPTR (s : ServiceEntry) (ttl : Nat) : RR :=
  { Hdr := { Name := ServiceName s.record, Rrtype := typePTR, Class := classINET, Ttl := ttl },
    Rdata := RData.ptr (ServiceInstanceName s.record) }

/-- The SRV record of `composeLookupAnswers`, rrclass `ClassINET | cache_flush`. -/
def lookupSRV (s : ServiceEntry) (ttl : Nat) : RR :=
  { Hdr := { Name := ServiceInstanceName s.record, Rrtype := typeSRV,
             Class := classINET ||| cacheFlush, Ttl := ttl },
    Rdata := RData.srv 0 0 (goUint16 s.Port) s.HostName }

/-- The TXT record of `composeLookupAnswers`, rrclass `ClassINET | cache_flush`. -/
def lookupTXT (s : ServiceEntry) (ttl : Nat) : RR :=
  { Hdr := { Name := ServiceInstanceName s.record, Rrtype := typeTXT,
             Class := classINET ||| cacheFlush, Ttl := ttl },
    Rdata := RData.txt s.Text }

/-- The service-type-enumeration PTR `ServiceTypeName -> ServiceName`
(no cache-flush), shared by `composeLookupAnswers` and `serviceTypeName`. -/
def lookupDNSSD (s : ServiceEntry) (ttl : Nat) : RR :=
  { Hdr := { Name := ServiceTypeName s.record, Rrtype := typePTR, Class := classINET, Ttl := ttl },
    Rdata := RData.ptr (ServiceName s.record) }

/-- An A record of `composeLookupAnswers`, rrclass `ClassINET | cache_flush`. -/
def lookupA (s : ServiceEntry) (ttl : Nat) (ip : GoIP) : RR :=
  { Hdr := { Name := s.HostName, Rrtype := typeA,
             Class := classINET ||| cacheFlush, Ttl := ttl },
    Rdata := RData.a ip }

/-- An AAAA record of `composeLookupAnswers`, rrclass `ClassINET | cache_flush`. -/
def lookupAAAA (s : ServiceEntry) (ttl : Nat) (ip : GoIP) : RR :=
  { Hdr := { Name := s.HostName, Rrtype := typeAAAA,
             Class := classINET ||| cacheFlush, Ttl := ttl },
    Rdata := RData.aaaa ip }

/-- `composeBrowsingAnswers`: appends the PTR to the Answer section and
SRV, TXT and the address records to the Additional (Extra) section. -/
def composeBrowsingAnswers (s : ServiceEntry) (ttl : Nat) (resp : DnsMsg) : DnsMsg :=
  { resp with
    Answer := resp.Answer ++ [browsePTR s ttl],
    Extra := resp.Extra ++ [browseSRV s ttl, browseTXT s ttl]
      ++ s.AddrIPv4.map (browseA s ttl) ++ s.AddrIPv6.map (browseAAAA s ttl) }

/-- `composeLookupAnswers`: appends SRV, TXT, the two PTRs and every address
record to the Answer section (the Extra section is left untouched). -/
def composeLookupAnswers (s : ServiceEntry) (ttl : Nat) (resp : DnsMsg) : DnsMsg :=
  { resp with
    Answer := resp.Answer
      ++ [lookupSRV s ttl, lookupTXT s ttl, lookupPTR s ttl, lookupDNSSD s ttl]
      ++ s.AddrIPv4.map (lookupA s ttl) ++ s.AddrIPv6.map (lookupAAAA s ttl) }

/-- `serviceTypeName` (the method on `Server`): appends the single
type-enumeration PTR to the Answer section. -/
def serviceTypeEnumAnswers (s : ServiceEntry) (ttl : Nat) (resp : DnsMsg) : DnsMsg :=
  { resp with Answer := resp.Answer ++ [lookupDNSSD s ttl] }

/-- `handleQuestion`: dispatch on the question name, in the source's
switch-case order (first match wins). -/
def handleQuestion (srv : Server) (q : DnsQuestion) (resp : DnsMsg) : DnsMsg :=
  match srv.Service with
  | none => resp
  | some entry =>
    if q.Name = ServiceName entry.record then composeBrowsingAnswers entry srv.ttl resp
    else if q.Name = ServiceInstanceName entry.record then composeLookupAnswers entry srv.ttl resp
    else if q.Name = entry.HostName then composeLookupAnswers entry srv.ttl resp
    else if q.Name = ServiceTypeName entry.record then serviceTypeEnumAnswers entry srv.ttl resp
    else resp

/-- `isUnicastQuestion`: top bit of qclass requests a unicast response. -/
def isUnicastQuestion (q : DnsQuestion) : Bool :=
  q.Qclass &&& (1 <<< 15) != 0

/-- The reply skeleton `handleQuery` builds per question:
`dns.Msg{}` + `SetReply(query)` + empty Answer and Extra. -/
def respInit (query : DnsMsg) : DnsMsg :=
  { Response := true, RecursionDesired := query.RecursionDesired,
    Question := query.Question.take 1, Answer := [], Ns := [], Extra := [] }

/-- A send the responder performs, with its destination kind. -/
inductive SendOp where
  | unicast (dest : GoStr) (resp : DnsMsg)
  | multicast (resp : DnsMsg)
deriving DecidableEq, Repr

/-- `handleQuery`: drops messages with a non-empty Answer or Authority
section; otherwise, for each question whose composed reply has a non-empty
Answer section, sends it unicast to the source iff the qclass top bit is
set, else multicast. -/
def handleQuery (srv : Server) (query : DnsMsg) (src : GoStr) : List SendOp :=
  if query.Answer.length > 0 then []
  else if query.Ns.length > 0 then []
  else query.Question.filterMap fun q =>
    let resp := handleQuestion srv q (respInit query)
    if resp.Answer.length > 0 then
      some (if isUnicastQuestion q then SendOp.unicast src resp else SendOp.multicast resp)
    else none

/-- A freshly constructed response message (`new(dns.Msg)` with
`Response = true` and empty Answer/Extra), the starting point of
`probe`'s announcement and of `unregister`. -/
def freshResponseMsg : DnsMsg :=
  { Response := true, RecursionDesired := false,
    Question := [], Answer := [], Ns := [], Extra := [] }

/-- The SRV record the probe places in its authority section (no cache-flush). -/
def probeSRV (s : ServiceEntry) (ttl : Nat) : RR :=
  { Hdr := { Name := ServiceInstanceName s.record, Rrtype := typeSRV, Class := classINET, Ttl := ttl },
    Rdata := RData.srv 0 0 (goUint16 s.Port) s.HostName }

/-- The TXT record the probe places in its authority section (no cache-flush). -/
def probeTXT (s : ServiceEntry) (ttl : Nat) : RR :=
  { Hdr := { Name := ServiceInstanceName s.record, Rrtype := typeTXT, Class := classINET, Ttl := ttl },
    Rdata := RData.txt s.Text }

/-- The probe query: `SetQuestion(ServiceInstanceName, TypePTR)` with
`RecursionDesired = false` and authority section `[SRV, TXT]`. -/
def probeQueryMsg (s : ServiceEntry) (ttl : Nat) : DnsMsg :=
  { Response := false, RecursionDesired := false,
    Question := [{ Name := ServiceInstanceName s.record, Qtype := typePTR, Qclass := classINET }],
    Answer := [], Ns := [probeSRV s ttl, probeTXT s ttl], Extra := [] }

/-- The announcement message: the full lookup-answer response. -/
def announceMsg (s : ServiceEntry) (ttl : Nat) : DnsMsg :=
  composeLookupAnswers s ttl freshResponseMsg

/-- One step of the probe/announce driver: a multicast send or a sleep. -/
inductive DriverEvent where
  | send (m : DnsMsg)
  | sleepMs (d : Nat)
deriving DecidableEq, Repr

/-- `probe`: the probe/announce driver's trace of sends and sleeps.
`rng i` models the i-th draw of `randomizer.Intn(250)`: `Intn`'s result lies
in `[0, 250)`, rendered here as `rng i % 250`.  `probe` runs only after
`Register` has set `Service`; a nil `Service` is modelled as the empty trace. -/
def probe (srv : Server) (rng : Nat → Nat) : List DriverEvent :=
  match srv.Service with
  | none => []
  | some entry =>
    ((List.range multicastRepitions).flatMap fun i =>
      [DriverEvent.send (probeQueryMsg entry srv.ttl),
       DriverEvent.sleepMs (rng i % 250)])
    ++ ((List.range multicastRepitions).flatMap fun i =>
      [DriverEvent.send (announceMsg entry srv.ttl),
       DriverEvent.sleepMs (1000 * 2 ^ i)])

/-- The goodbye message `unregister` multicasts: the lookup answers with TTL 0. -/
def goodbyeMsg (s : ServiceEntry) : DnsMsg :=
  composeLookupAnswers s 0 freshResponseMsg

/-- The externally visible actions of `shutdown`. -/
inductive ShutdownAction where
  | sendGoodbye
  | closeV4
  | closeV6
deriving DecidableEq, Repr

/-- `shutdown`: under the lock, a no-op when `shuttingDown` is already set;
otherwise sets the flag, multicasts the goodbye (`unregister`, its error
discarded) and closes the open connections.  Returns the new state, the
actions performed and the (always nil) returned error. -/
def shutdown (s : Server) : Server × List ShutdownAction × Option GoStr :=
  if s.shuttingDown then (s, [], none)
  else
    ({ s with shuttingDown := true, ipv4conn := false, ipv6conn := false },
     [ShutdownAction.sendGoodbye]
       ++ (if s.ipv4conn then [ShutdownAction.closeV4] else [])
       ++ (if s.ipv6conn then [ShutdownAction.closeV6] else []),
     none)

/-- `n` successive calls of `shutdown`, collecting all actions. -/
def shutdownN : Nat → Server → Server × List ShutdownAction
  | 0, s => (s, [])
  | n + 1, s =>
    let r := shutdown s
    let rest := shutdownN n r.1
    (rest.1, r.2.1 ++ rest.2)

/-- `multicastResponse`, with its effects made explicit: `pack` is the
outcome of `msg.Pack()` and `w4`/`w6` the outcomes of the two `WriteTo`
calls (`none` = success).  Returns the log lines emitted and the error
returned to the caller.  The source drops both `WriteTo` return values and
returns nil after a successful pack. -/
def multicastResponse (pack : Except GoStr (List Nat)) (w4 w6 : Option GoStr) :
    List GoStr × Option GoStr :=
  match pack with
  | Except.error e => ([("Failed to pack message!").data], some e)
  | Except.ok _ => ([], none)

/-- `unicastResponse`, effects made explicit: returns the pack error if
packing fails, else the outcome of the single `WriteToUDP` call. -/
def unicastResponse (pack : Except GoStr (List Nat)) (w : Option GoStr) : Option GoStr :=
  match pack with
  | Except.error e => some e
  | Except.ok _ => w

/-- One iteration of the `recv` loop after a successful read: the log lines
it emits given the error `parsePacket`/`handleQuery` returned. -/
def recvIterationLogs (parseErr : Option GoStr) : List GoStr :=
  match parseErr with
  | some e => [("[ERR] bonjour: Failed to handle query: ").data ++ e]
  | none => []

/-- The validation prefix of `Register`: the errors returned before any
OS interaction, in source order (empty instance, empty service, zero port;
an empty domain is defaulted, not rejected). -/
def registerValidate (inst svc dom : GoStr) (port : Int) : Option GoStr :=
  if inst = [] then some ("Missing service instance name").data
  else if svc = [] then some ("Missing service name").data
  else
    let _dom := if dom = [] then ("local").data else dom
    if port = 0 then some ("Missing port").data
    else none

/- Generic helper lemmas shared by several claims. -/

theorem filter_map_none {α} (p : RR → Bool) (f : α → RR) (l : List α)
    (h : ∀ x, p (f x) = false) : (l.map f).filter p = [] := by
  induction l with
  | nil => rfl
  | cons x t ih => simp [h, ih]

theorem filter_map_all {α} (p : RR → Bool) (f : α → RR) (l : List α)
    (h : ∀ x, p (f x) = true) : (l.map f).filter p = l.map f := by
  induction l with
  | nil => rfl
  | cons x t ih => simp [h, ih]

/- A demonstration registration, used by the witnesses. -/

def demoRecord : ServiceRecord :=
  { Instance := ("demo").data, Service := ("_http._tcp").data, Domain := ("local").data }

def demoEntry : ServiceEntry :=
  { record := demoRecord, HostName := ("host.local.").data, Port := 8080,
    Text := [("path=/").data], TTL := 3200,
    AddrIPv4 := [[192, 168, 1, 2]],
    AddrIPv6 := [[0, 0, 0, 0, 0, 0, 0, 0, 0, 0, 0, 0, 0, 0, 0, 1]] }

def demoServer : Server :=
  { Service := some demoEntry, ipv4conn := true, ipv6conn := true,
    shuttingDown := false, ttl := 3200 }

/-- Claim C2: every record composed by `composeLookupAnswers` with TTL
argument `t` — SRV, TXT, both PTRs and every A/AAAA — carries TTL `t`; in
particular the goodbye (`unregister`, composed with `t = 0`) has TTL 0 on
every record, and a normal lookup answer (`t` = the configured TTL) carries
that TTL on its address records. -/
theorem claim_C2 (s : ServiceEntry) (t : Nat) (resp : DnsMsg)
    (hA : resp.Answer = []) (hE : resp.Extra = []) :
    (∀ rr ∈ (composeLookupAnswers s t resp).Answer, rr.Hdr.Ttl = t) ∧
    (∀ rr ∈ (composeLookupAnswers s t resp).Extra, rr.Hdr.Ttl = t) ∧
    (∀ rr ∈ (goodbyeMsg s).Answer, rr.Hdr.Ttl = 0) ∧
    (∀ rr ∈ (goodbyeMsg s).Extra, rr.Hdr.Ttl = 0) := by
  refine ⟨?_, ?_, ?_, ?_⟩
  · intro rr hrr
    simp [composeLookupAnswers, hA] at hrr
    rcases hrr with h | h | h | h | ⟨ip, _, h⟩ | ⟨ip, _, h⟩ <;> subst h <;> rfl
  · intro rr hrr
    simp [composeLookupAnswers, hE] at hrr
  · intro rr hrr
    simp [goodbyeMsg, composeLookupAnswers, freshResponseMsg] at hrr
    rcases hrr with h | h | h | h | ⟨ip, _, h⟩ | ⟨ip, _, h⟩ <;> subst h <;> rfl
  · intro rr hrr
    simp [goodbyeMsg, composeLookupAnswers, freshResponseMsg] at hrr

/-- Witness for C2 at the demonstration registration. -/
theorem claim_C2_witness :
    (∀ rr ∈ (composeLookupAnswers demoEntry 3200 freshResponseMsg).Answer, rr.Hdr.Ttl = 3200) ∧
    (∀ rr ∈ (composeLookupAnswers demoEntry 3200 freshResponseMsg).Extra, rr.Hdr.Ttl = 3200) ∧
    (∀ rr ∈ (goodbyeMsg demoEntry).Answer, rr.Hdr.Ttl = 0) ∧
    (∀ rr ∈ (goodbyeMsg demoEntry).Extra, rr.Hdr.Ttl = 0) :=
  claim_C2 demoEntry 3200 freshResponseMsg rfl rfl

/-- Claim C4: for a started registration the driver multicasts the probe
query exactly twice, pausing after each send by a random duration in
[0, 250) ms (the i-th draw of `Intn(250)` is modelled as `rng i % 250`),
then multicasts the full lookup-answer announcement exactly twice, pausing
1 s after the first send and 2 s after the second. -/
theorem claim_C4 (srv : Server) (entry : ServiceEntry) (rng : Nat → Nat)
    (h : srv.Service = some entry) :
    probe srv rng =
      [DriverEvent.send (probeQueryMsg entry srv.ttl), DriverEvent.sleepMs (rng 0 % 250),
       DriverEvent.send (probeQueryMsg entry srv.ttl), DriverEvent.sleepMs (rng 1 % 250),
       DriverEvent.send (announceMsg entry srv.ttl), DriverEvent.sleepMs 1000,
       DriverEvent.send (announceMsg entry srv.ttl), DriverEvent.sleepMs 2000] ∧
    (∀ i, rng i % 250 < 250) := by
  constructor
  · simp [probe, h, multicastRepitions]
    rfl
  · intro i
    exact Nat.mod_lt _ (by norm_num)

/-- Witness for C4 at the demonstration registration with a constant
randomizer. -/
theorem claim_C4_witness :
    probe demoServer (fun _ => 125) =
      [DriverEvent.send (probeQueryMsg demoEntry demoServer.ttl), DriverEvent.sleepMs (125 % 250),
       DriverEvent.send (probeQueryMsg demoEntry demoServer.ttl), DriverEvent.sleepMs (125 % 250),
       DriverEvent.send (announceMsg demoEntry demoServer.ttl), DriverEvent.sleepMs 1000,
       DriverEvent.send (announceMsg demoEntry demoServer.ttl), DriverEvent.sleepMs 2000] ∧
    (∀ i : Nat, (fun _ => 125 : Nat → Nat) i % 250 < 250) :=
  claim_C4 demoServer demoEntry (fun _ => 125) rfl

/-- Claim C8 evaluation: `multicastResponse` ignores the outcomes of both
socket writes — after a successful pack it emits no log line and returns
nil whatever the write results are (shown also at the concrete failing
write) — whereas `unicastResponse` returns the write outcome to its caller,
and the receive loop logs every non-nil error it gets back. -/
theorem claim_C8_behavior :
    (∀ (buf : List Nat) (w4 w6 : Option GoStr),
      multicastResponse (Except.ok buf) w4 w6 = ([], none)) ∧
    multicastResponse (Except.ok [0])
      (some ("write failed").data) (some ("write failed").data) = ([], none) ∧
    (∀ e : GoStr, ∀ w4 w6 : Option GoStr,
      multicastResponse (Except.error e) w4 w6 =
        ([("Failed to pack message!").data], some e)) ∧
    (∀ (buf : List Nat) (w : Option GoStr), unicastResponse (Except.ok buf) w = w) ∧
    (∀ e : GoStr, recvIterationLogs (some e) ≠ []) := by
  refine ⟨fun _ _ _ => rfl, rfl, fun _ _ _ => rfl, fun _ _ => rfl, fun e => ?_⟩
  simp [recvIterationLogs]

/-- Claim C9: the first `shutdown` call sends the goodbye, closes the open
connections, flips `shuttingDown` to true and returns nil; every later call
is a no-op returning nil, so across any number of calls exactly one goodbye
is sent and the flag moves from false to true exactly once. -/
theorem claim_C9 (s : Server) (h : s.shuttingDown = false) :
    (shutdown s).1.shuttingDown = true ∧
    (shutdown s).2.1 =
      [ShutdownAction.sendGoodbye]
        ++ (if s.ipv4conn then [ShutdownAction.closeV4] else [])
        ++ (if s.ipv6conn then [ShutdownAction.closeV6] else []) ∧
    (shutdown s).2.2 = none ∧
    (∀ s2 : Server, s2.shuttingDown = true → shutdown s2 = (s2, [], none)) ∧
    (∀ n, (shutdownN (n + 1) s).2.count ShutdownAction.sendGoodbye = 1) ∧
    (∀ n, (shutdownN (n + 1) s).1.shuttingDown = true) := by
  have hdone : ∀ s2 : Server, s2.shuttingDown = true → shutdown s2 = (s2, [], none) := by
    intro s2 h2
    simp [shutdown, h2]
  have hNdone : ∀ n (s2 : Server), s2.shuttingDown = true → shutdownN n s2 = (s2, []) := by
    intro n
    induction n with
    | zero => intro s2 h2; rfl
    | succ m ih =>
      intro s2 h2
      simp [shutdownN, hdone s2 h2, ih s2 h2]
  have hfirst : (shutdown s).1.shuttingDown = true := by
    simp [shutdown, h]
  refine ⟨hfirst, by simp [shutdown, h], by simp [shutdown, h], hdone, ?_, ?_⟩
  · intro n
    have : shutdownN (n + 1) s = ((shutdown s).1, (shutdown s).2.1 ++ []) := by
      simp [shutdownN, hNdone n (shutdown s).1 hfirst]
    rw [this]
    simp [shutdown, h]
    cases hv4 : s.ipv4conn <;> cases hv6 : s.ipv6conn <;> simp [List.count_cons, List.count_append]
  · intro n
    have : shutdownN (n + 1) s = ((shutdown s).1, (shutdown s).2.1 ++ []) := by
      simp [shutdownN, hNdone n (shutdown s).1 hfirst]
    rw [this]
    exact hfirst

/-- Witness for C9 at the demonstration server. -/
theorem claim_C9_witness :
    (shutdown demoServer).1.shuttingDown = true ∧
    (shutdown demoServer).2.1 =
      [ShutdownAction.sendGoodbye]
        ++ (if demoServer.ipv4conn then [ShutdownAction.closeV4] else [])
        ++ (if demoServer.ipv6conn then [ShutdownAction.closeV6] else []) ∧
    (shutdown demoServer).2.2 = none ∧
    (∀ s2 : Server, s2.shuttingDown = true → shutdown s2 = (s2, [], none)) ∧
    (∀ n, (shutdownN (n + 1) demoServer).2.count ShutdownAction.sendGoodbye = 1) ∧
    (∀ n, (shutdownN (n + 1) demoServer).1.shuttingDown = true) :=
  claim_C9 demoServer rfl

/-- Claim C10: `Register`'s validation accepts any non-zero port, and every
SRV record the responder emits — in lookup answers, browsing answers and the
probe's authority section — carries `Port` reduced modulo `2 ^ 16`
(`uint16(s.Service.Port)`), so a port of 65536 or more is silently
truncated, as the concrete instance `goUint16 65616 = 80` shows. -/
theorem claim_C10 (inst svc dom : GoStr) (port : Int)
    (h1 : inst ≠ []) (h2 : svc ≠ []) (h3 : port ≠ 0)
    (s : ServiceEntry) (t : Nat) :
    registerValidate inst svc dom port = none ∧
    (∀ rr ∈ (composeLookupAnswers s t freshResponseMsg).Answer, isSRVb rr = true →
      rr.Rdata = RData.srv 0 0 ((s.Port % 65536).toNat) s.HostName) ∧
    (∀ rr ∈ (composeBrowsingAnswers s t freshResponseMsg).Answer
        ++ (composeBrowsingAnswers s t freshResponseMsg).Extra, isSRVb rr = true →
      rr.Rdata = RData.srv 0 0 ((s.Port % 65536).toNat) s.HostName) ∧
    (∀ rr ∈ (probeQueryMsg s t).Ns, isSRVb rr = true →
      rr.Rdata = RData.srv 0 0 ((s.Port % 65536).toNat) s.HostName) ∧
    goUint16 65616 = 80 := by
  refine ⟨?_, ?_, ?_, ?_, rfl⟩
  · simp [registerValidate, h1, h2, h3]
  · intro rr hrr hsrv
    simp [composeLookupAnswers, freshResponseMsg] at hrr
    rcases hrr with h | h | h | h | ⟨ip, _, h⟩ | ⟨ip, _, h⟩ <;> subst h <;>
      first
      | rfl
      | simp [isSRVb, lookupTXT, lookupPTR, lookupDNSSD, lookupA, lookupAAAA,
              typeSRV, typeTXT, typePTR, typeA, typeAAAA] at hsrv
  · intro rr hrr hsrv
    simp [composeBrowsingAnswers, freshResponseMsg] at hrr
    rcases hrr with h | h | h | ⟨ip, _, h⟩ | ⟨ip, _, h⟩ <;> subst h <;>
      first
      | rfl
      | simp [isSRVb, browsePTR, browseTXT, browseA, browseAAAA,
              typeSRV, typeTXT, typePTR, typeA, typeAAAA] at hsrv
  · intro rr hrr hsrv
    simp [probeQueryMsg] at hrr
    rcases hrr with h | h <;> subst h <;>
      first
      | rfl
      | simp [isSRVb, probeTXT, typeSRV, typeTXT] at hsrv

/-- Witness for C10: a validation pass and the truncated SRV port at the
demonstration registration. -/
theorem claim_C10_witness :
    registerValidate ("demo").data ("_http._tcp").data ("local").data 65616 = none ∧
    (∀ rr ∈ (composeLookupAnswers demoEntry 3200 freshResponseMsg).Answer, isSRVb rr = true →
      rr.Rdata = RData.srv 0 0 ((demoEntry.Port % 65536).toNat) demoEntry.HostName) ∧
    (∀ rr ∈ (composeBrowsingAnswers demoEntry 3200 freshResponseMsg).Answer
        ++ (composeBrowsingAnswers demoEntry 3200 freshResponseMsg).Extra, isSRVb rr = true →
      rr.Rdata = RData.srv 0 0 ((demoEntry.Port % 65536).toNat) demoEntry.HostName) ∧
    (∀ rr ∈ (probeQueryMsg demoEntry 3200).Ns, isSRVb rr = true →
      rr.Rdata = RData.srv 0 0 ((demoEntry.Port % 65536).toNat) demoEntry.HostName) ∧
    goUint16 65616 = 80 :=
  claim_C10 ("demo").data ("_http._tcp").data ("local").data 65616
    (by decide) (by decide) (by decide) demoEntry 3200

/-- A record whose rrclass is plain `ClassINET` has no cache-flush bit. -/
theorem cfSet_not_of_inet (rr : RR) (h : rr.Hdr.Class = classINET) : ¬ cfSet rr := by
  unfold cfSet
  rw [h]
  decide

/-- A record whose rrclass is `ClassINET | cache_flush` has the
cache-flush bit set. -/
theorem cfSet_of_flush (rr : RR) (h : rr.Hdr.Class = classINET ||| cacheFlush) : cfSet rr := by
  unfold cfSet
  rw [h]
  decide

theorem srvOfBrowseSRV (s : ServiceEntry) (t : Nat) : isSRVb (browseSRV s t) = true := rfl

theorem notSrvOfBrowseTXT (s : ServiceEntry) (t : Nat) : isSRVb (browseTXT s t) = false := rfl

theorem notTxtOfBrowseSRV (s : ServiceEntry) (t : Nat) : isTXTb (browseSRV s t) = false := rfl

theorem txtOfBrowseTXT (s : ServiceEntry) (t : Nat) : isTXTb (browseTXT s t) = true := rfl

theorem notAOfBrowseSRV (s : ServiceEntry) (t : Nat) : isAb (browseSRV s t) = false := rfl

theorem notAOfBrowseTXT (s : ServiceEntry) (t : Nat) : isAb (browseTXT s t) = false := rfl

theorem notAAAAOfBrowseSRV (s : ServiceEntry) (t : Nat) : isAAAAb (browseSRV s t) = false := rfl

theorem notAAAAOfBrowseTXT (s : ServiceEntry) (t : Nat) : isAAAAb (browseTXT s t) = false := rfl

/-- Claim C5: a browsing-answer response has exactly the one PTR
`ServiceName -> ServiceInstanceName` in its Answer section; its Additional
section holds the SRV(0, 0, port, hostname), the TXT with the registered
text, and exactly one A/AAAA per registered address; and no record of the
message has the cache-flush bit set. -/
theorem claim_C5 (s : ServiceEntry) (t : Nat) (resp : DnsMsg)
    (hA : resp.Answer = []) (hE : resp.Extra = [])
    (hp0 : 0 ≤ s.Port) (hp : s.Port < 65536) :
    (composeBrowsingAnswers s t resp).Answer = [browsePTR s t] ∧
    (browsePTR s t).Hdr.Name = ServiceName s.record ∧
    (browsePTR s t).Rdata = RData.ptr (ServiceInstanceName s.record) ∧
    (composeBrowsingAnswers s t resp).Extra.filter isSRVb = [browseSRV s t] ∧
    (browseSRV s t).Rdata = RData.srv 0 0 s.Port.toNat s.HostName ∧
    (browseSRV s t).Hdr.Name = ServiceInstanceName s.record ∧
    (composeBrowsingAnswers s t resp).Extra.filter isTXTb = [browseTXT s t] ∧
    (browseTXT s t).Rdata = RData.txt s.Text ∧
    (composeBrowsingAnswers s t resp).Extra.filter isAb = s.AddrIPv4.map (browseA s t) ∧
    (∀ ip, (browseA s t ip).Rdata = RData.a ip ∧ (browseA s t ip).Hdr.Name = s.HostName) ∧
    (composeBrowsingAnswers s t resp).Extra.filter isAAAAb = s.AddrIPv6.map (browseAAAA s t) ∧
    (∀ ip, (browseAAAA s t ip).Rdata = RData.aaaa ip ∧ (browseAAAA s t ip).Hdr.Name = s.HostName) ∧
    (∀ rr ∈ (composeBrowsingAnswers s t resp).Answer
        ++ (composeBrowsingAnswers s t resp).Extra, ¬ cfSet rr) := by
  have hport : goUint16 s.Port = s.Port.toNat := by
    unfold goUint16
    rw [Int.emod_eq_of_lt hp0 hp]
  refine ⟨?_, rfl, rfl, ?_, ?_, rfl, ?_, rfl, ?_, fun ip => ⟨rfl, rfl⟩, ?_,
    fun ip => ⟨rfl, rfl⟩, ?_⟩
  · simp [composeBrowsingAnswers, hA]
  · simp [composeBrowsingAnswers, hE, List.filter_cons, srvOfBrowseSRV, notSrvOfBrowseTXT,
      filter_map_none isSRVb (browseA s t) s.AddrIPv4 (fun ip => rfl),
      filter_map_none isSRVb (browseAAAA s t) s.AddrIPv6 (fun ip => rfl)]
  · rw [browseSRV, hport]
  · simp [composeBrowsingAnswers, hE, List.filter_cons, notTxtOfBrowseSRV, txtOfBrowseTXT,
      filter_map_none isTXTb (browseA s t) s.AddrIPv4 (fun ip => rfl),
      filter_map_none isTXTb (browseAAAA s t) s.AddrIPv6 (fun ip => rfl)]
  · simp [composeBrowsingAnswers, hE, List.filter_cons, notAOfBrowseSRV, notAOfBrowseTXT,
      filter_map_all isAb (browseA s t) s.AddrIPv4 (fun ip => rfl),
      filter_map_none isAb (browseAAAA s t) s.AddrIPv6 (fun ip => rfl)]
  · simp [composeBrowsingAnswers, hE, List.filter_cons, notAAAAOfBrowseSRV, notAAAAOfBrowseTXT,
      filter_map_none isAAAAb (browseA s t) s.AddrIPv4 (fun ip => rfl),
      filter_map_all isAAAAb (browseAAAA s t) s.AddrIPv6 (fun ip => rfl)]
  · intro rr hrr
    simp [composeBrowsingAnswers, hA, hE] at hrr
    rcases hrr with h | h | h | ⟨ip, _, h⟩ | ⟨ip, _, h⟩ <;> subst h <;>
      exact cfSet_not_of_inet _ rfl

/-- Witness for C5 at the demonstration registration. -/
theorem claim_C5_witness :
    (composeBrowsingAnswers demoEntry 3200 freshResponseMsg).Answer = [browsePTR demoEntry 3200] ∧
    (browsePTR demoEntry 3200).Hdr.Name = ServiceName demoEntry.record ∧
    (browsePTR demoEntry 3200).Rdata = RData.ptr (ServiceInstanceName demoEntry.record) ∧
    (composeBrowsingAnswers demoEntry 3200 freshResponseMsg).Extra.filter isSRVb = [browseSRV demoEntry 3200] ∧
    (browseSRV demoEntry 3200).Rdata = RData.srv 0 0 demoEntry.Port.toNat demoEntry.HostName ∧
    (browseSRV demoEntry 3200).Hdr.Name = ServiceInstanceName demoEntry.record ∧
    (composeBrowsingAnswers demoEntry 3200 freshResponseMsg).Extra.filter isTXTb = [browseTXT demoEntry 3200] ∧
    (browseTXT demoEntry 3200).Rdata = RData.txt demoEntry.Text ∧
    (composeBrowsingAnswers demoEntry 3200 freshResponseMsg).Extra.filter isAb =
      demoEntry.AddrIPv4.map (browseA demoEntry 3200) ∧
    (∀ ip, (browseA demoEntry 3200 ip).Rdata = RData.a ip ∧
      (browseA demoEntry 3200 ip).Hdr.Name = demoEntry.HostName) ∧
    (composeBrowsingAnswers demoEntry 3200 freshResponseMsg).Extra.filter isAAAAb =
      demoEntry.AddrIPv6.map (browseAAAA demoEntry 3200) ∧
    (∀ ip, (browseAAAA demoEntry 3200 ip).Rdata = RData.aaaa ip ∧
      (browseAAAA demoEntry 3200 ip).Hdr.Name = demoEntry.HostName) ∧
    (∀ rr ∈ (composeBrowsingAnswers demoEntry 3200 freshResponseMsg).Answer
        ++ (composeBrowsingAnswers demoEntry 3200 freshResponseMsg).Extra, ¬ cfSet rr) :=
  claim_C5 demoEntry 3200 freshResponseMsg rfl rfl (by decide) (by decide)

theorem srvOfLookupSRV (s : ServiceEntry) (t : Nat) : isSRVb (lookupSRV s t) = true := rfl

theorem notSrvOfLookupTXT (s : ServiceEntry) (t : Nat) : isSRVb (lookupTXT s t) = false := rfl

theorem notSrvOfLookupPTR (s : ServiceEntry) (t : Nat) : isSRVb (lookupPTR s t) = false := rfl

theorem notSrvOfLookupDNSSD (s : ServiceEntry) (t : Nat) : isSRVb (lookupDNSSD s t) = false := rfl

theorem notTxtOfLookupSRV (s : ServiceEntry) (t : Nat) : isTXTb (lookupSRV s t) = false := rfl

theorem txtOfLookupTXT (s : ServiceEntry) (t : Nat) : isTXTb (lookupTXT s t) = true := rfl

theorem notTxtOfLookupPTR (s : ServiceEntry) (t : Nat) : isTXTb (lookupPTR s t) = false := rfl

theorem notTxtOfLookupDNSSD (s : ServiceEntry) (t : Nat) : isTXTb (lookupDNSSD s t) = false := rfl

theorem notPtrOfLookupSRV (s : ServiceEntry) (t : Nat) : isPTRb (lookupSRV s t) = false := rfl

theorem notPtrOfLookupTXT (s : ServiceEntry) (t : Nat) : isPTRb (lookupTXT s t) = false := rfl

theorem ptrOfLookupPTR (s : ServiceEntry) (t : Nat) : isPTRb (lookupPTR s t) = true := rfl

theorem ptrOfLookupDNSSD (s : ServiceEntry) (t : Nat) : isPTRb (lookupDNSSD s t) = true := rfl

theorem notAOfLookupSRV (s : ServiceEntry) (t : Nat) : isAb (lookupSRV s t) = false := rfl

theorem notAOfLookupTXT (s : ServiceEntry) (t : Nat) : isAb (lookupTXT s t) = false := rfl

theorem notAOfLookupPTR (s : ServiceEntry) (t : Nat) : isAb (lookupPTR s t) = false := rfl

theorem notAOfLookupDNSSD (s : ServiceEntry) (t : Nat) : isAb (lookupDNSSD s t) = false := rfl

theorem notAAAAOfLookupSRV (s : ServiceEntry) (t : Nat) : isAAAAb (lookupSRV s t) = false := rfl

theorem notAAAAOfLookupTXT (s : ServiceEntry) (t : Nat) : isAAAAb (lookupTXT s t) = false := rfl

theorem notAAAAOfLookupPTR (s : ServiceEntry) (t : Nat) : isAAAAb (lookupPTR s t) = false := rfl

theorem notAAAAOfLookupDNSSD (s : ServiceEntry) (t : Nat) : isAAAAb (lookupDNSSD s t) = false := rfl

/-- Claim C1: a lookup-answer response has, in its Answer section, exactly
one SRV (cache-flush, priority 0, weight 0, registered port and hostname
target), exactly one TXT (cache-flush, registered text), the PTR
`ServiceName -> ServiceInstanceName` and the PTR
`ServiceTypeName -> ServiceName` (both without cache-flush), and exactly one
A/AAAA record (cache-flush) per registered address; the Additional section
stays empty, so every address record lives in the Answer section. -/
theorem claim_C1 (s : ServiceEntry) (t : Nat) (resp : DnsMsg)
    (hA : resp.Answer = []) (hE : resp.Extra = [])
    (hp0 : 0 ≤ s.Port) (hp : s.Port < 65536) :
    (composeLookupAnswers s t resp).Answer.filter isSRVb = [lookupSRV s t] ∧
    cfSet (lookupSRV s t) ∧
    (lookupSRV s t).Rdata = RData.srv 0 0 s.Port.toNat s.HostName ∧
    (lookupSRV s t).Hdr.Name = ServiceInstanceName s.record ∧
    (composeLookupAnswers s t resp).Answer.filter isTXTb = [lookupTXT s t] ∧
    cfSet (lookupTXT s t) ∧
    (lookupTXT s t).Rdata = RData.txt s.Text ∧
    (lookupTXT s t).Hdr.Name = ServiceInstanceName s.record ∧
    (composeLookupAnswers s t resp).Answer.filter isPTRb = [lookupPTR s t, lookupDNSSD s t] ∧
    ¬ cfSet (lookupPTR s t) ∧
    (lookupPTR s t).Hdr.Name = ServiceName s.record ∧
    (lookupPTR s t).Rdata = RData.ptr (ServiceInstanceName s.record) ∧
    ¬ cfSet (lookupDNSSD s t) ∧
    (lookupDNSSD s t).Hdr.Name = ServiceTypeName s.record ∧
    (lookupDNSSD s t).Rdata = RData.ptr (ServiceName s.record) ∧
    (composeLookupAnswers s t resp).Answer.filter isAb = s.AddrIPv4.map (lookupA s t) ∧
    (∀ ip, cfSet (lookupA s t ip) ∧ (lookupA s t ip).Rdata = RData.a ip ∧
      (lookupA s t ip).Hdr.Name = s.HostName) ∧
    (composeLookupAnswers s t resp).Answer.filter isAAAAb = s.AddrIPv6.map (lookupAAAA s t) ∧
    (∀ ip, cfSet (lookupAAAA s t ip) ∧ (lookupAAAA s t ip).Rdata = RData.aaaa ip ∧
      (lookupAAAA s t ip).Hdr.Name = s.HostName) ∧
    (composeLookupAnswers s t resp).Extra = [] := by
  have hport : goUint16 s.Port = s.Port.toNat := by
    unfold goUint16
    rw [Int.emod_eq_of_lt hp0 hp]
  refine ⟨?_, cfSet_of_flush _ rfl, ?_, rfl, ?_, cfSet_of_flush _ rfl, rfl, rfl, ?_,
    cfSet_not_of_inet _ rfl, rfl, rfl, cfSet_not_of_inet _ rfl, rfl, rfl, ?_,
    fun ip => ⟨cfSet_of_flush _ rfl, rfl, rfl⟩, ?_,
    fun ip => ⟨cfSet_of_flush _ rfl, rfl, rfl⟩, ?_⟩
  · simp [composeLookupAnswers, hA, List.filter_cons, srvOfLookupSRV, notSrvOfLookupTXT,
      notSrvOfLookupPTR, notSrvOfLookupDNSSD,
      filter_map_none isSRVb (lookupA s t) s.AddrIPv4 (fun ip => rfl),
      filter_map_none isSRVb (lookupAAAA s t) s.AddrIPv6 (fun ip => rfl)]
  · rw [lookupSRV, hport]
  · simp [composeLookupAnswers, hA, List.filter_cons, notTxtOfLookupSRV, txtOfLookupTXT,
      notTxtOfLookupPTR, notTxtOfLookupDNSSD,
      filter_map_none isTXTb (lookupA s t) s.AddrIPv4 (fun ip => rfl),
      filter_map_none isTXTb (lookupAAAA s t) s.AddrIPv6 (fun ip => rfl)]
  · simp [composeLookupAnswers, hA, List.filter_cons, notPtrOfLookupSRV, notPtrOfLookupTXT,
      ptrOfLookupPTR, ptrOfLookupDNSSD,
      filter_map_none isPTRb (lookupA s t) s.AddrIPv4 (fun ip => rfl),
      filter_map_none isPTRb (lookupAAAA s t) s.AddrIPv6 (fun ip => rfl)]
  · simp [composeLookupAnswers, hA, List.filter_cons, notAOfLookupSRV, notAOfLookupTXT,
      notAOfLookupPTR, notAOfLookupDNSSD,
      filter_map_all isAb (lookupA s t) s.AddrIPv4 (fun ip => rfl),
      filter_map_none isAb (lookupAAAA s t) s.AddrIPv6 (fun ip => rfl)]
  · simp [composeLookupAnswers, hA, List.filter_cons, notAAAAOfLookupSRV, notAAAAOfLookupTXT,
      notAAAAOfLookupPTR, notAAAAOfLookupDNSSD,
      filter_map_none isAAAAb (lookupA s t) s.AddrIPv4 (fun ip => rfl),
      filter_map_all isAAAAb (lookupAAAA s t) s.AddrIPv6 (fun ip => rfl)]
  · simp [composeLookupAnswers, hE]

/-- Witness for C1 at the demonstration registration. -/
theorem claim_C1_witness :
    (composeLookupAnswers demoEntry 3200 freshResponseMsg).Answer.filter isSRVb = [lookupSRV demoEntry 3200] ∧
    cfSet (lookupSRV demoEntry 3200) ∧
    (lookupSRV demoEntry 3200).Rdata = RData.srv 0 0 demoEntry.Port.toNat demoEntry.HostName ∧
    (lookupSRV demoEntry 3200).Hdr.Name = ServiceInstanceName demoEntry.record ∧
    (composeLookupAnswers demoEntry 3200 freshResponseMsg).Answer.filter isTXTb = [lookupTXT demoEntry 3200] ∧
    cfSet (lookupTXT demoEntry 3200) ∧
    (lookupTXT demoEntry 3200).Rdata = RData.txt demoEntry.Text ∧
    (lookupTXT demoEntry 3200).Hdr.Name = ServiceInstanceName demoEntry.record ∧
    (composeLookupAnswers demoEntry 3200 freshResponseMsg).Answer.filter isPTRb =
      [lookupPTR demoEntry 3200, lookupDNSSD demoEntry 3200] ∧
    ¬ cfSet (lookupPTR demoEntry 3200) ∧
    (lookupPTR demoEntry 3200).Hdr.Name = ServiceName demoEntry.record ∧
    (lookupPTR demoEntry 3200).Rdata = RData.ptr (ServiceInstanceName demoEntry.record) ∧
    ¬ cfSet (lookupDNSSD demoEntry 3200) ∧
    (lookupDNSSD demoEntry 3200).Hdr.Name = ServiceTypeName demoEntry.record ∧
    (lookupDNSSD demoEntry 3200).Rdata = RData.ptr (ServiceName demoEntry.record) ∧
    (composeLookupAnswers demoEntry 3200 freshResponseMsg).Answer.filter isAb =
      demoEntry.AddrIPv4.map (lookupA demoEntry 3200) ∧
    (∀ ip, cfSet (lookupA demoEntry 3200 ip) ∧ (lookupA demoEntry 3200 ip).Rdata = RData.a ip ∧
      (lookupA demoEntry 3200 ip).Hdr.Name = demoEntry.HostName) ∧
    (composeLookupAnswers demoEntry 3200 freshResponseMsg).Answer.filter isAAAAb =
      demoEntry.AddrIPv6.map (lookupAAAA demoEntry 3200) ∧
    (∀ ip, cfSet (lookupAAAA demoEntry 3200 ip) ∧ (lookupAAAA demoEntry 3200 ip).Rdata = RData.aaaa ip ∧
      (lookupAAAA demoEntry 3200 ip).Hdr.Name = demoEntry.HostName) ∧
    (composeLookupAnswers demoEntry 3200 freshResponseMsg).Extra = [] :=
  claim_C1 demoEntry 3200 freshResponseMsg rfl rfl (by decide) (by decide)

/-- Claim C6: a received message with a non-empty Answer or Authority
section produces no response at all; for a pure query, each question whose
composed reply has a non-empty Answer section is sent by unicast to the
query's source exactly when the top bit (`1 <<< 15 = 0x8000`) of its QCLASS
is set, and by multicast otherwise. -/
theorem claim_C6 (srv : Server) (query : DnsMsg) (src : GoStr) :
    ((query.Answer ≠ [] ∨ query.Ns ≠ []) → handleQuery srv query src = []) ∧
    (query.Answer = [] → query.Ns = [] →
      ∀ q ∈ query.Question,
        (handleQuestion srv q (respInit query)).Answer ≠ [] →
          ((q.Qclass &&& (1 <<< 15) ≠ 0 →
              SendOp.unicast src (handleQuestion srv q (respInit query)) ∈
                handleQuery srv query src) ∧
           (q.Qclass &&& (1 <<< 15) = 0 →
              SendOp.multicast (handleQuestion srv q (respInit query)) ∈
                handleQuery srv query src))) := by
  constructor
  · intro h
    unfold handleQuery
    rcases h with h | h
    · rw [if_pos]
      simpa [List.length_pos] using h
    · by_cases hA : query.Answer.length > 0
      · rw [if_pos hA]
      · rw [if_neg hA, if_pos]
        simpa [List.length_pos] using h
  · intro hA hNs q hq hans
    have hrun : handleQuery srv query src = query.Question.filterMap fun q =>
        let resp := handleQuestion srv q (respInit query)
        if resp.Answer.length > 0 then
          some (if isUnicastQuestion q then SendOp.unicast src resp else SendOp.multicast resp)
        else none := by
      unfold handleQuery
      rw [if_neg (by simp [hA]), if_neg (by simp [hNs])]
    have hlen : (handleQuestion srv q (respInit query)).Answer.length > 0 :=
      List.length_pos.mpr hans
    constructor
    · intro hbit
      rw [hrun]
      refine List.mem_filterMap.mpr ⟨q, hq, ?_⟩
      have hu : isUnicastQuestion q = true := by
        simpa [isUnicastQuestion] using hbit
      simp [hlen, hu]
    · intro hbit
      rw [hrun]
      refine List.mem_filterMap.mpr ⟨q, hq, ?_⟩
      have hu : isUnicastQuestion q = false := by
        simp only [isUnicastQuestion]
        simp only [bne_eq_false_iff_eq]
        simpa using hbit
      simp [hlen, hu]

/-- A non-pure query (non-empty Answer section), for the C6 witness. -/
def demoBadQuery : DnsMsg :=
  { Response := false, RecursionDesired := false,
    Question := [{ Name := ServiceName demoRecord, Qtype := typePTR, Qclass := classINET }],
    Answer := [browsePTR demoEntry 3200], Ns := [], Extra := [] }

/-- A multicast-requesting question on the service name. -/
def demoQMulti : DnsQuestion :=
  { Name := ServiceName demoRecord, Qtype := typePTR, Qclass := classINET }

/-- A unicast-requesting question on the service name (QCLASS top bit set). -/
def demoQUni : DnsQuestion :=
  { Name := ServiceName demoRecord, Qtype := typePTR, Qclass := 32769 }

/-- A pure query carrying both demonstration questions. -/
def demoPureQuery : DnsMsg :=
  { Response := false, RecursionDesired := false,
    Question := [demoQMulti, demoQUni], Answer := [], Ns := [], Extra := [] }

/-- Witness for C6: the non-pure query is dropped; the multicast and
unicast questions of the pure query are answered on the matching paths. -/
theorem claim_C6_witness :
    handleQuery demoServer demoBadQuery ("192.0.2.10").data = [] ∧
    SendOp.multicast (handleQuestion demoServer demoQMulti (respInit demoPureQuery)) ∈
      handleQuery demoServer demoPureQuery ("192.0.2.10").data ∧
    SendOp.unicast ("192.0.2.10").data
        (handleQuestion demoServer demoQUni (respInit demoPureQuery)) ∈
      handleQuery demoServer demoPureQuery ("192.0.2.10").data :=
  ⟨(claim_C6 demoServer demoBadQuery ("192.0.2.10").data).1 (Or.inl (by decide)),
   (((claim_C6 demoServer demoPureQuery ("192.0.2.10").data).2 rfl rfl demoQMulti
      (by decide) (by decide)).2 (by decide)),
   (((claim_C6 demoServer demoPureQuery ("192.0.2.10").data).2 rfl rfl demoQUni
      (by decide) (by decide)).1 (by decide))⟩

/-- Browsing and lookup answers differ: lengths of the appended Answer
records disagree (1 vs at least 4). -/
theorem browse_ne_lookup (s : ServiceEntry) (t : Nat) (resp : DnsMsg) :
    composeBrowsingAnswers s t resp ≠ composeLookupAnswers s t resp := by
  intro h
  have hlen := congrArg (fun m => m.Answer.length) h
  simp [composeBrowsingAnswers, composeLookupAnswers] at hlen

/-- Browsing and type-enumeration answers differ: the former extends the
Extra section, the latter leaves it unchanged. -/
theorem browse_ne_typeenum (s : ServiceEntry) (t : Nat) (resp : DnsMsg) :
    composeBrowsingAnswers s t resp ≠ serviceTypeEnumAnswers s t resp := by
  intro h
  have hlen := congrArg (fun m => m.Extra.length) h
  simp [composeBrowsingAnswers, serviceTypeEnumAnswers] at hlen

/-- Lookup and type-enumeration answers differ in Answer length (≥ 4 vs 1). -/
theorem lookup_ne_typeenum (s : ServiceEntry) (t : Nat) (resp : DnsMsg) :
    composeLookupAnswers s t resp ≠ serviceTypeEnumAnswers s t resp := by
  intro h
  have hlen := congrArg (fun m => m.Answer.length) h
  simp [composeLookupAnswers, serviceTypeEnumAnswers] at hlen

/-- Browsing answers change the message. -/
theorem browse_ne_id (s : ServiceEntry) (t : Nat) (resp : DnsMsg) :
    composeBrowsingAnswers s t resp ≠ resp := by
  intro h
  have hlen := congrArg (fun m => m.Answer.length) h
  simp [composeBrowsingAnswers] at hlen

/-- Lookup answers change the message. -/
theorem lookup_ne_id (s : ServiceEntry) (t : Nat) (resp : DnsMsg) :
    composeLookupAnswers s t resp ≠ resp := by
  intro h
  have hlen := congrArg (fun m => m.Answer.length) h
  simp [composeLookupAnswers] at hlen

/-- Type-enumeration answers change the message. -/
theorem typeenum_ne_id (s : ServiceEntry) (t : Nat) (resp : DnsMsg) :
    serviceTypeEnumAnswers s t resp ≠ resp := by
  intro h
  have hlen := congrArg (fun m => m.Answer.length) h
  simp [serviceTypeEnumAnswers] at hlen

/-- Claim C3: for a registered service whose four names are pairwise
distinct, `handleQuestion` emits browsing answers exactly when the question
name equals `ServiceName`, lookup answers exactly when it equals
`ServiceInstanceName` or the registered hostname, type-enumeration answers
exactly when it equals `ServiceTypeName`, and leaves the reply untouched
(no response) for every other name. -/
theorem claim_C3 (srv : Server) (entry : ServiceEntry)
    (hs : srv.Service = some entry)
    (h1 : ServiceName entry.record ≠ ServiceInstanceName entry.record)
    (h2 : ServiceName entry.record ≠ entry.HostName)
    (h3 : ServiceTypeName entry.record ≠ ServiceName entry.record)
    (h4 : ServiceTypeName entry.record ≠ ServiceInstanceName entry.record)
    (h5 : ServiceTypeName entry.record ≠ entry.HostName)
    (q : DnsQuestion) (resp : DnsMsg) :
    (handleQuestion srv q resp = composeBrowsingAnswers entry srv.ttl resp ↔
      q.Name = ServiceName entry.record) ∧
    (handleQuestion srv q resp = composeLookupAnswers entry srv.ttl resp ↔
      (q.Name = ServiceInstanceName entry.record ∨ q.Name = entry.HostName)) ∧
    (handleQuestion srv q resp = serviceTypeEnumAnswers entry srv.ttl resp ↔
      q.Name = ServiceTypeName entry.record) ∧
    ((q.Name ≠ ServiceName entry.record ∧ q.Name ≠ ServiceInstanceName entry.record ∧
      q.Name ≠ entry.HostName ∧ q.Name ≠ ServiceTypeName entry.record) →
      handleQuestion srv q resp = resp) := by
  by_cases e1 : q.Name = ServiceName entry.record
  · have hrun : handleQuestion srv q resp = composeBrowsingAnswers entry srv.ttl resp := by
      simp only [handleQuestion, hs]
      rw [if_pos e1]
    refine ⟨⟨fun _ => e1, fun _ => hrun⟩, ?_, ?_, ?_⟩
    · rw [hrun]
      constructor
      · intro h
        exact absurd h (browse_ne_lookup entry srv.ttl resp)
      · rintro (h | h)
        · exact absurd (e1 ▸ h) h1
        · exact absurd (e1 ▸ h) h2
    · rw [hrun]
      constructor
      · intro h
        exact absurd h (browse_ne_typeenum entry srv.ttl resp)
      · intro h
        exact absurd (h.symm.trans e1) h3
    · rintro ⟨ha, _, _, _⟩
      exact absurd e1 ha
  · by_cases e2 : q.Name = ServiceInstanceName entry.record
    · have hrun : handleQuestion srv q resp = composeLookupAnswers entry srv.ttl resp := by
        simp only [handleQuestion, hs]
        rw [if_neg e1, if_pos e2]
      refine ⟨?_, ⟨fun _ => Or.inl e2, fun _ => hrun⟩, ?_, ?_⟩
      · rw [hrun]
        constructor
        · intro h
          exact absurd h.symm (browse_ne_lookup entry srv.ttl resp)
        · intro h
          exact absurd h e1
      · rw [hrun]
        constructor
        · intro h
          exact absurd h (lookup_ne_typeenum entry srv.ttl resp)
        · intro h
          exact absurd (h.symm.trans e2) h4
      · rintro ⟨_, hb, _, _⟩
        exact absurd e2 hb
    · by_cases e3 : q.Name = entry.HostName
      · have hrun : handleQuestion srv q resp = composeLookupAnswers entry srv.ttl resp := by
          simp only [handleQuestion, hs]
          rw [if_neg e1, if_neg e2, if_pos e3]
        refine ⟨?_, ⟨fun _ => Or.inr e3, fun _ => hrun⟩, ?_, ?_⟩
        · rw [hrun]
          constructor
          · intro h
            exact absurd h.symm (browse_ne_lookup entry srv.ttl resp)
          · intro h
            exact absurd h e1
        · rw [hrun]
          constructor
          · intro h
            exact absurd h (lookup_ne_typeenum entry srv.ttl resp)
          · intro h
            exact absurd (h.symm.trans e3) h5
        · rintro ⟨_, _, hc, _⟩
          exact absurd e3 hc
      · by_cases e4 : q.Name = ServiceTypeName entry.record
        · have hrun : handleQuestion srv q resp = serviceTypeEnumAnswers entry srv.ttl resp := by
            simp only [handleQuestion, hs]
            rw [if_neg e1, if_neg e2, if_neg e3, if_pos e4]
          refine ⟨?_, ?_, ⟨fun _ => e4, fun _ => hrun⟩, ?_⟩
          · rw [hrun]
            constructor
            · intro h
              exact absurd h.symm (browse_ne_typeenum entry srv.ttl resp)
            · intro h
              exact absurd h e1
          · rw [hrun]
            constructor
            · intro h
              exact absurd h.symm (lookup_ne_typeenum entry srv.ttl resp)
            · rintro (h | h)
              · exact absurd h e2
              · exact absurd h e3
          · rintro ⟨_, _, _, hd⟩
            exact absurd e4 hd
        · have hrun : handleQuestion srv q resp = resp := by
            simp only [handleQuestion, hs]
            rw [if_neg e1, if_neg e2, if_neg e3, if_neg e4]
          refine ⟨?_, ?_, ?_, fun _ => hrun⟩
          · rw [hrun]
            constructor
            · intro h
              exact absurd h.symm (browse_ne_id entry srv.ttl resp)
            · intro h
              exact absurd h e1
          · rw [hrun]
            constructor
            · intro h
              exact absurd h.symm (lookup_ne_id entry srv.ttl resp)
            · rintro (h | h)
              · exact absurd h e2
              · exact absurd h e3
          · rw [hrun]
            constructor
            · intro h
              exact absurd h.symm (typeenum_ne_id entry srv.ttl resp)
            · intro h
              exact absurd h e4

/-- Witness for C3: the demonstration server, a hostname question and an
arbitrary fresh reply message. -/
theorem claim_C3_witness :
    (handleQuestion demoServer { Name := demoEntry.HostName, Qtype := typeA, Qclass := classINET }
        freshResponseMsg = composeBrowsingAnswers demoEntry demoServer.ttl freshResponseMsg ↔
      ({ Name := demoEntry.HostName, Qtype := typeA, Qclass := classINET } : DnsQuestion).Name =
        ServiceName demoEntry.record) ∧
    (handleQuestion demoServer { Name := demoEntry.HostName, Qtype := typeA, Qclass := classINET }
        freshResponseMsg = composeLookupAnswers demoEntry demoServer.ttl freshResponseMsg ↔
      (({ Name := demoEntry.HostName, Qtype := typeA, Qclass := classINET } : DnsQuestion).Name =
        ServiceInstanceName demoEntry.record ∨
       ({ Name := demoEntry.HostName, Qtype := typeA, Qclass := classINET } : DnsQuestion).Name =
        demoEntry.HostName)) ∧
    (handleQuestion demoServer { Name := demoEntry.HostName, Qtype := typeA, Qclass := classINET }
        freshResponseMsg = serviceTypeEnumAnswers demoEntry demoServer.ttl freshResponseMsg ↔
      ({ Name := demoEntry.HostName, Qtype := typeA, Qclass := classINET } : DnsQuestion).Name =
        ServiceTypeName demoEntry.record) ∧
    ((({ Name := demoEntry.HostName, Qtype := typeA, Qclass := classINET } : DnsQuestion).Name ≠
        ServiceName demoEntry.record ∧
      ({ Name := demoEntry.HostName, Qtype := typeA, Qclass := classINET } : DnsQuestion).Name ≠
        ServiceInstanceName demoEntry.record ∧
      ({ Name := demoEntry.HostName, Qtype := typeA, Qclass := classINET } : DnsQuestion).Name ≠
        demoEntry.HostName ∧
      ({ Name := demoEntry.HostName, Qtype := typeA, Qclass := classINET } : DnsQuestion).Name ≠
        ServiceTypeName demoEntry.record) →
      handleQuestion demoServer { Name := demoEntry.HostName, Qtype := typeA, Qclass := classINET }
        freshResponseMsg = freshResponseMsg) :=
  claim_C3 demoServer demoEntry rfl (by decide) (by decide) (by decide) (by decide) (by decide)
    { Name := demoEntry.HostName, Qtype := typeA, Qclass := classINET } freshResponseMsg

/-- Counterexample to C7 as stated: with an empty domain string the
composed service name is `"_http._tcp.."` — it contains adjacent dots
(hence an empty label) and ends with two terminal dots, not one. -/
theorem claim_C7_counterexample :
    ServiceName { Instance := ("i").data, Service := ("_http._tcp").data, Domain := [] } =
      ("_http._tcp..").data ∧
    hasAdjDots (ServiceName
      { Instance := ("i").data, Service := ("_http._tcp").data, Domain := [] }) = true ∧
    lastIsDot (ServiceName
      { Instance := ("i").data, Service := ("_http._tcp").data, Domain := [] }).dropLast = true := by
  decide

/-- `lastIsDot` of a cons looks at the (non-empty) tail. -/
theorem lastIsDot_cons (x : Char) (l : GoStr) (h : l ≠ []) :
    lastIsDot (x :: l) = lastIsDot l := by
  cases l with
  | nil => exact absurd rfl h
  | cons y r => rfl

/-- `lastIsDot` of an append with a non-empty right part. -/
theorem lastIsDot_append (a b : GoStr) (h : b ≠ []) :
    lastIsDot (a ++ b) = lastIsDot b := by
  induction a with
  | nil => rfl
  | cons x t ih =>
    rw [List.cons_append, lastIsDot_cons x (t ++ b) (by simp [h]), ih]

/-- `headIsDot` of an append with a non-empty left part. -/
theorem headIsDot_append (a b : GoStr) (h : a ≠ []) :
    headIsDot (a ++ b) = headIsDot a := by
  cases a with
  | nil => exact absurd rfl h
  | cons x t => rfl

/-- Appending dot-free-junction strings preserves freedom from adjacent
dots. -/
theorem hasAdjDots_append (a b : GoStr) (ha : hasAdjDots a = false)
    (hb : hasAdjDots b = false) (hj : lastIsDot a = false ∨ headIsDot b = false) :
    hasAdjDots (a ++ b) = false := by
  induction a with
  | nil => simpa using hb
  | cons x t ih =>
    cases t with
    | nil =>
      cases b with
      | nil => rfl
      | cons y r =>
        rcases hj with hj | hj <;> simp_all [hasAdjDots, lastIsDot, headIsDot]
    | cons y t2 =>
      simp only [hasAdjDots, Bool.or_eq_false_iff] at ha
      have hj2 : lastIsDot (y :: t2) = false ∨ headIsDot b = false := by
        rcases hj with hj | hj
        · exact Or.inl hj
        · exact Or.inr hj
      have htail := ih ha.2 hj2
      simp only [List.cons_append] at htail ⊢
      simp only [hasAdjDots, Bool.or_eq_false_iff]
      exact ⟨ha.1, by simpa using htail⟩

/-- A usable DNS label string: non-empty, no adjacent dots, and no dot at
either end. -/
def GoodLabel (x : GoStr) : Prop :=
  x ≠ [] ∧ hasAdjDots x = false ∧ headIsDot x = false ∧ lastIsDot x = false

instance (x : GoStr) : Decidable (GoodLabel x) := by
  unfold GoodLabel; infer_instance

/-- The name ends with exactly one terminal dot: it is some string not
ending in a dot, followed by a single dot. -/
def EndsWithOneDot (s : GoStr) : Prop :=
  ∃ t, s = t ++ ['.'] ∧ lastIsDot t = false

/-- Claim C7 amended: for a `ServiceRecord` whose instance, service and
domain are, after `trimDot`, non-empty and free of adjacent and edge dots,
`ServiceName()` and `ServiceInstanceName()` contain no adjacent dots, do
not start with a dot (so, with the terminal dot, have no empty label), and
end with exactly one terminal dot; `ServiceInstanceName()` is empty exactly
when the instance is empty. -/
theorem claim_C7_amended (r : ServiceRecord)
    (hs : GoodLabel (trimDot r.Service)) (hd : GoodLabel (trimDot r.Domain))
    (hi : r.Instance ≠ [] → GoodLabel (trimDot r.Instance)) :
    (hasAdjDots (ServiceName r) = false ∧ headIsDot (ServiceName r) = false ∧
      EndsWithOneDot (ServiceName r)) ∧
    (r.Instance ≠ [] →
      (hasAdjDots (ServiceInstanceName r) = false ∧
       headIsDot (ServiceInstanceName r) = false ∧
       EndsWithOneDot (ServiceInstanceName r))) ∧
    (r.Instance = [] → ServiceInstanceName r = []) := by
  obtain ⟨hsne, hsadj, hshead, hslast⟩ := hs
  obtain ⟨hdne, hdadj, hdhead, hdlast⟩ := hd
  have hmidlast : lastIsDot (trimDot r.Service ++ ['.'] ++ trimDot r.Domain) = false := by
    rw [lastIsDot_append _ _ hdne]
    exact hdlast
  have hA1 : hasAdjDots (trimDot r.Service ++ ['.']) = false :=
    hasAdjDots_append _ _ hsadj rfl (Or.inl hslast)
  have hA2 : hasAdjDots (trimDot r.Service ++ ['.'] ++ trimDot r.Domain) = false :=
    hasAdjDots_append _ _ hA1 hdadj (Or.inr hdhead)
  have hSNadj : hasAdjDots (ServiceName r) = false :=
    hasAdjDots_append _ _ hA2 rfl (Or.inl hmidlast)
  have hSNhead : headIsDot (ServiceName r) = false := by
    unfold ServiceName
    rw [headIsDot_append _ _ (by simp [hsne]), headIsDot_append _ _ (by simp [hsne]),
      headIsDot_append _ _ hsne]
    exact hshead
  have hSNend : EndsWithOneDot (ServiceName r) :=
    ⟨trimDot r.Service ++ ['.'] ++ trimDot r.Domain, rfl, hmidlast⟩
  refine ⟨⟨hSNadj, hSNhead, hSNend⟩, ?_, ?_⟩
  · intro hne
    obtain ⟨hine, hiadj, hihead, hilast⟩ := hi hne
    have hSIN : ServiceInstanceName r = trimDot r.Instance ++ ['.'] ++ ServiceName r := by
      rw [ServiceInstanceName, if_neg hne]
    have hI1 : hasAdjDots (trimDot r.Instance ++ ['.']) = false :=
      hasAdjDots_append _ _ hiadj rfl (Or.inl hilast)
    refine ⟨?_, ?_, ?_⟩
    · rw [hSIN]
      exact hasAdjDots_append _ _ hI1 hSNadj (Or.inr hSNhead)
    · rw [hSIN, headIsDot_append _ _ (by simp [hine]), headIsDot_append _ _ hine]
      exact hihead
    · refine ⟨trimDot r.Instance ++ ['.'] ++ (trimDot r.Service ++ ['.'] ++ trimDot r.Domain),
        ?_, ?_⟩
      · rw [hSIN]
        unfold ServiceName
        simp [List.append_assoc]
      · rw [lastIsDot_append _ _ (by simp [hdne])]
        exact hmidlast
  · intro hempty
    rw [ServiceInstanceName, if_pos hempty]

/-- Witness for the amended C7 at the demonstration record. -/
theorem claim_C7_amended_witness :
    (hasAdjDots (ServiceName demoRecord) = false ∧ headIsDot (ServiceName demoRecord) = false ∧
      EndsWithOneDot (ServiceName demoRecord)) ∧
    (demoRecord.Instance ≠ [] →
      (hasAdjDots (ServiceInstanceName demoRecord) = false ∧
       headIsDot (ServiceInstanceName demoRecord) = false ∧
       EndsWithOneDot (ServiceInstanceName demoRecord))) ∧
    (demoRecord.Instance = [] → ServiceInstanceName demoRecord = []) :=
  claim_C7_amended demoRecord (by decide) (by decide) (fun _ => by decide)
